import Mathlib

/-!
Verification development for the MoltenVK pipeline layer
(`MoltenVK/GPUObjects/MVKPipeline.h`).

The repository snapshot contains only the header `MVKPipeline.h`; the
implementation file `MVKPipeline.mm` and the supporting headers
(`MVKDevice.h`, `MVKDescriptorSet.h`, `MVKShaderModule.h`) are not part of
the snapshot.  Consequently every method body referenced below is modelled
from the specification: each such definition carries a doc comment starting
with `Modelled from the spec:` naming the missing code.  Declarations,
field layouts and constants that do appear in `MVKPipeline.h` are embedded
directly from the header.
-/

namespace MVK

/-! ## Graphics pipeline stages -/

/-- Modelled from the spec: the stage identifiers returned by
`MVKGraphicsPipeline::getStages` (the enumeration lives outside the
snapshot).  The spec fixes the tessellated order as
{vertex-as-compute, tess-control, raster}. -/
def kMVKGraphicsStageVertex : Nat := 0

/-- Modelled from the spec: the tessellation-control stage identifier. -/
def kMVKGraphicsStageTessControl : Nat := 1

/-- Modelled from the spec: the rasterization stage identifier. -/
def kMVKGraphicsStageRasterization : Nat := 2

/-- `VK_DYNAMIC_STATE_RANGE_SIZE`, the size of the fixed flag array
`bool _dynamicStateEnabled[VK_DYNAMIC_STATE_RANGE_SIZE]` declared at
`MVKPipeline.h:256`.  The Vulkan 1.0 dynamic-state enumeration runs from
`VK_DYNAMIC_STATE_VIEWPORT = 0` to `VK_DYNAMIC_STATE_STENCIL_REFERENCE = 8`. -/
def VK_DYNAMIC_STATE_RANGE_SIZE : Nat := 9

/-- The state of an `MVKGraphicsPipeline` object relevant to stage
enumeration and dynamic-state queries: `patchControlPoints` embeds
`_tessInfo.patchControlPoints` (`MVKPipeline.h:229`), and
`dynamicStateEnabled` embeds the fixed-size flag array
`_dynamicStateEnabled` (`MVKPipeline.h:256`). -/
structure MVKGraphicsPipeline where
  patchControlPoints : Nat
  dynamicStateEnabled : Fin VK_DYNAMIC_STATE_RANGE_SIZE → Bool

/-- `MVKGraphicsPipeline::isTessellationPipeline` (`MVKPipeline.h:163`):
`return _tessInfo.patchControlPoints > 0;`. -/
def MVKGraphicsPipeline.isTessellationPipeline (p : MVKGraphicsPipeline) : Bool :=
  p.patchControlPoints > 0

/-- Modelled from the spec: the body of `MVKGraphicsPipeline::getStages`
(`MVKPipeline.h:154`, implemented in `MVKPipeline.mm`, not in the
snapshot).  A tessellated pipeline yields the three stages
vertex-as-compute, tess-control, raster in that fixed order; a
non-tessellated pipeline yields the single rasterization stage. -/
def MVKGraphicsPipeline.getStages (p : MVKGraphicsPipeline) : List Nat :=
  if p.isTessellationPipeline then
    [kMVKGraphicsStageVertex, kMVKGraphicsStageTessControl, kMVKGraphicsStageRasterization]
  else
    [kMVKGraphicsStageRasterization]

/-- Modelled from the spec: the recording of dynamic-state flags at
pipeline construction (`MVKPipeline.mm`, not in the snapshot).  Each state
value declared dynamic in the create info sets the corresponding flag in
the fixed-size array. -/
def mkDynamicStateEnabled (declared : List Nat) :
    Fin VK_DYNAMIC_STATE_RANGE_SIZE → Bool :=
  fun i => decide (i.val ∈ declared)

/-- Modelled from the spec: the body of
`MVKGraphicsPipeline::supportsDynamicState` (`MVKPipeline.h:160`,
implemented in `MVKPipeline.mm`, not in the snapshot).  Per the spec it is
a bounds-checked membership test against the fixed-size flag set: reads
outside the enumeration range return false rather than faulting. -/
def MVKGraphicsPipeline.supportsDynamicState (p : MVKGraphicsPipeline)
    (state : Nat) : Bool :=
  if h : state < VK_DYNAMIC_STATE_RANGE_SIZE then
    p.dynamicStateEnabled ⟨state, h⟩
  else
    false

/-- Modelled from the spec: construction of the graphics pipeline object
as far as the embedded fields are concerned (patch control points from the
tessellation create info, dynamic-state flags from the declared list). -/
def mkGraphicsPipeline (patchControlPoints : Nat) (declared : List Nat) :
    MVKGraphicsPipeline :=
  { patchControlPoints := patchControlPoints
    dynamicStateEnabled := mkDynamicStateEnabled declared }

/-! ## Compute pipeline -/

/-- The state of an `MVKComputePipeline` object (`MVKPipeline.h:294`):
exactly one compiled backend state object `_mtlPipelineState`, the
threadgroup size `_mtlThreadgroupSize`, and the `_needsAuxBuffer` flag. -/
structure MVKComputePipeline (σ : Type) where
  mtlPipelineState : σ
  mtlThreadgroupSize : Nat × Nat × Nat
  needsAuxBuffer : Bool

/-- Modelled from the spec: the body of `MVKComputePipeline::getStages`
(`MVKPipeline.h:278`, implemented in `MVKPipeline.mm`, not in the
snapshot).  All compute pipelines yield exactly one stage. -/
def MVKComputePipeline.getStages (_ : MVKComputePipeline σ) : List Nat :=
  [kMVKGraphicsStageRasterization]

/-- The binding effect `encode` produces on the command encoder: the
compiled state object bound plus the threadgroup size recorded for the
dispatch. -/
structure MVKComputeEncoding (σ : Type) where
  boundState : σ
  threadgroupSize : Nat × Nat × Nat

/-- Modelled from the spec: the body of `MVKComputePipeline::encode`
(`MVKPipeline.h:281`, implemented in `MVKPipeline.mm`, not in the
snapshot).  The stage parameter is declared unnamed in the header
(`void encode(MVKCommandEncoder* cmdEncoder, uint32_t = 0)`); the pipeline
binds its single compiled state object regardless of the stage value. -/
def MVKComputePipeline.encode (p : MVKComputePipeline σ) (_ : Nat) :
    MVKComputeEncoding σ :=
  { boundState := p.mtlPipelineState
    threadgroupSize := p.mtlThreadgroupSize }

/-! ## Pipeline-state compilers -/

/-- The outcome of the backend's asynchronous pipeline-state compile as
observed by the bounded wait: the backend returned a state object, the
backend reported a failure with diagnostic text, or the configured timeout
expired first. -/
inductive MVKMetalCompileOutcome (σ : Type)
  | success : σ → MVKMetalCompileOutcome σ
  | failure : String → MVKMetalCompileOutcome σ
  | timeout : MVKMetalCompileOutcome σ

/-- What a one-shot compiler instance hands back to its caller: the state
object (none on failure or timeout) and the diagnostics it logged. -/
structure MVKCompilerOutput (σ : Type) where
  state : Option σ
  logged : List String

/-- Modelled from the spec: the body of
`MVKRenderPipelineCompiler::newMTLRenderPipelineState`
(`MVKPipeline.h:358`, implemented in `MVKPipeline.mm`, not in the
snapshot).  On success the retained state object is returned; on a
backend-reported failure the backend diagnostic is logged and nil is
returned; on timeout a diagnostic is logged and nil is returned. -/
def newMTLRenderPipelineState (r : MVKMetalCompileOutcome σ) :
    MVKCompilerOutput σ :=
  match r with
  | .success s => { state := some s, logged := [] }
  | .failure diag => { state := none, logged := ["Render pipeline compile failed: " ++ diag] }
  | .timeout => { state := none, logged := ["Render pipeline compile timed out"] }

/-- Modelled from the spec: the body of
`MVKComputePipelineCompiler::newMTLComputePipelineState`
(`MVKPipeline.h:395`, implemented in `MVKPipeline.mm`, not in the
snapshot).  Same contract as the render compiler, with the compute
compiler type in the diagnostic. -/
def newMTLComputePipelineState (r : MVKMetalCompileOutcome σ) :
    MVKCompilerOutput σ :=
  match r with
  | .success s => { state := some s, logged := [] }
  | .failure diag => { state := none, logged := ["Compute pipeline compile failed: " ++ diag] }
  | .timeout => { state := none, logged := ["Compute pipeline compile timed out"] }

/-! ## Pipeline construction atomicity -/

/-- Modelled from the spec: the body of
`MVKGraphicsPipeline::getOrCompilePipeline` (`MVKPipeline.h:201`,
implemented in `MVKPipeline.mm`, not in the snapshot).  Returns the cached
state if one exists, otherwise the compiler's result (nil on failure). -/
def getOrCompilePipeline (plState : Option σ) (compiled : Option σ) : Option σ :=
  match plState with
  | some s => some s
  | none => compiled

/-- The compile results produced for the 1-3 backend descriptors of a
graphics pipeline: the raster (or sole) render state, and for tessellated
pipelines the vertex-as-compute render state and the two index-width
variants of the tessellation-control compute state
(`MVKPipeline.h:238` to `MVKPipeline.h:242`).  `none` records a compile
failure or timeout. -/
structure MVKGraphicsCompileResults (σ τ : Type) where
  tessVertexState : Option σ
  tessControlIndex16State : Option τ
  tessControlIndex32State : Option τ
  rasterState : Option σ

/-- The compiled state stored in a fully built graphics pipeline: either a
single render state (non-tessellated) or the full tessellation-emulation
set with both index-width variants. -/
inductive MVKGraphicsPipelineStates (σ τ : Type)
  | nonTess (mtlPipelineState : σ)
  | tess (vertexState : σ) (tessCtlIndex16 : τ) (tessCtlIndex32 : τ) (rasterState : σ)

/-- Modelled from the spec: the body of
`MVKGraphicsPipeline::initMTLRenderPipelineState` (`MVKPipeline.h:203`,
implemented in `MVKPipeline.mm`, not in the snapshot).  Any compile
failure on any of the 1-3 descriptors fails the whole construction and no
partially-built pipeline is returned. -/
def initMTLRenderPipelineState (tess : Bool)
    (r : MVKGraphicsCompileResults σ τ) : Option (MVKGraphicsPipelineStates σ τ) :=
  if tess then
    match r.tessVertexState, r.tessControlIndex16State,
          r.tessControlIndex32State, r.rasterState with
    | some v, some c16, some c32, some m => some (.tess v c16 c32 m)
    | _, _, _, _ => none
  else
    match r.rasterState with
    | some m => some (.nonTess m)
    | none => none

/-- Modelled from the spec: the compile step of the `MVKComputePipeline`
constructor (`MVKPipeline.h:284`, implemented in `MVKPipeline.mm`, not in
the snapshot).  One backend descriptor is compiled; failure fails the
construction. -/
def initMVKComputePipeline (compiled : Option τ) (tgSize : Nat × Nat × Nat)
    (needsAux : Bool) : Option (MVKComputePipeline τ) :=
  match compiled with
  | some s => some { mtlPipelineState := s, mtlThreadgroupSize := tgSize, needsAuxBuffer := needsAux }
  | none => none

/-! ## Pipeline layout and resource-index assignment -/

/-- Modelled from the spec: `kMVKShaderStageMax` is declared in
`MVKDevice.h`, not in the snapshot.  The spec names five shader stages:
vertex, tess-control, tess-eval, fragment, compute. -/
def kMVKShaderStageMax : Nat := 5

/-- The per-stage resource indices of one binding group: the next free
buffer, texture and sampler index in that stage's index namespace. -/
structure MVKShaderStageResourceBinding where
  bufferIndex : Nat
  textureIndex : Nat
  samplerIndex : Nat
deriving DecidableEq

/-- `MVKShaderResourceBinding`: one `MVKShaderStageResourceBinding` per
shader stage (declared in `MVKDescriptorSet.h`, not in the snapshot;
mirrored by `MVKShaderImplicitRezBinding` at `MVKPipeline.h:40`). -/
structure MVKShaderResourceBinding where
  stages : Fin kMVKShaderStageMax → MVKShaderStageResourceBinding

/-- The zero binding: every index namespace starts at zero. -/
def MVKShaderResourceBinding.zero : MVKShaderResourceBinding :=
  ⟨fun _ => ⟨0, 0, 0⟩⟩

/-- The resource counts declared by one descriptor-set layout: how many
buffers, textures and samplers its bindings consume. -/
structure MVKDescriptorSetLayoutCounts where
  bufferCount : Nat
  textureCount : Nat
  samplerCount : Nat
deriving DecidableEq

/-- Modelled from the spec: accumulation of one descriptor set's resource
counts into the running per-stage resource indices during pipeline-layout
construction (`MVKPipelineLayout` constructor, `MVKPipeline.mm`, not in
the snapshot). -/
def MVKShaderResourceBinding.addDSL (b : MVKShaderResourceBinding)
    (d : MVKDescriptorSetLayoutCounts) : MVKShaderResourceBinding :=
  ⟨fun s =>
    { bufferIndex := (b.stages s).bufferIndex + d.bufferCount
      textureIndex := (b.stages s).textureIndex + d.textureCount
      samplerIndex := (b.stages s).samplerIndex + d.samplerCount }⟩

/-- Modelled from the spec: the offset-table computation of the
`MVKPipelineLayout` constructor (`MVKPipeline.h:88`, implemented in
`MVKPipeline.mm`, not in the snapshot).  Walking the descriptor sets in
order, each set receives the current running indices as its offsets and
then advances the running indices by its own counts; the final running
indices are left for the push-constant/implicit bindings, which the spec
places after the highest index consumed by declared bindings.  Returns
the per-set offset table and the final running indices. -/
def dslResourceIndexOffsets (start : MVKShaderResourceBinding) :
    List MVKDescriptorSetLayoutCounts →
    List MVKShaderResourceBinding × MVKShaderResourceBinding
  | [] => ([], start)
  | d :: rest =>
      let r := dslResourceIndexOffsets (start.addDSL d) rest
      (start :: r.1, r.2)

/-- The state of an `MVKPipelineLayout` object (`MVKPipeline.h:91` to
`MVKPipeline.h:94`): the descriptor-set layouts, the per-set resource
index offsets `_dslMTLResourceIndexOffsets`, and the resource indices
assigned past all sets, `_pushConstantsMTLResourceIndexes`. -/
structure MVKPipelineLayout where
  descriptorSetLayouts : List MVKDescriptorSetLayoutCounts
  dslMTLResourceIndexOffsets : List MVKShaderResourceBinding
  pushConstantsMTLResourceIndexes : MVKShaderResourceBinding

/-- Modelled from the spec: the `MVKPipelineLayout` constructor
(`MVKPipeline.h:88`, implemented in `MVKPipeline.mm`, not in the
snapshot): computes the offset table once, starting from index zero. -/
def mkPipelineLayout (sets : List MVKDescriptorSetLayoutCounts) :
    MVKPipelineLayout :=
  let r := dslResourceIndexOffsets .zero sets
  { descriptorSetLayouts := sets
    dslMTLResourceIndexOffsets := r.1
    pushConstantsMTLResourceIndexes := r.2 }

/-- Modelled from the spec: `MVKShaderResourceBinding::getMaxTextureIndex`
(declared in `MVKDescriptorSet.h`, not in the snapshot): the highest
texture index over all shader stages. -/
def MVKShaderResourceBinding.getMaxTextureIndex
    (b : MVKShaderResourceBinding) : Nat :=
  max (b.stages ⟨0, by decide⟩).textureIndex
    (max (b.stages ⟨1, by decide⟩).textureIndex
      (max (b.stages ⟨2, by decide⟩).textureIndex
        (max (b.stages ⟨3, by decide⟩).textureIndex
          (b.stages ⟨4, by decide⟩).textureIndex)))

/-- `MVKPipelineLayout::getTextureCount` (`MVKPipeline.h:85`):
`return _pushConstantsMTLResourceIndexes.getMaxTextureIndex();`. -/
def MVKPipelineLayout.getTextureCount (L : MVKPipelineLayout) : Nat :=
  L.pushConstantsMTLResourceIndexes.getMaxTextureIndex

/-- The total of one resource count over a list of descriptor sets. -/
def countTotal (f : MVKDescriptorSetLayoutCounts → Nat)
    (sets : List MVKDescriptorSetLayoutCounts) : Nat :=
  (sets.map f).sum

/-- The offsets recorded for set `i` (zero when `i` is out of range). -/
def MVKPipelineLayout.offsetAt (L : MVKPipelineLayout) (i : Nat) :
    MVKShaderResourceBinding :=
  L.dslMTLResourceIndexOffsets.getD i .zero

/-- The counts of set `i` (zero when `i` is out of range). -/
def MVKPipelineLayout.countsAt (L : MVKPipelineLayout) (i : Nat) :
    MVKDescriptorSetLayoutCounts :=
  L.descriptorSetLayouts.getD i ⟨0, 0, 0⟩

/-- Set `i` occupies texture index `n` in stage `s`: `n` lies in the
half-open range starting at the set's texture offset, of width the set's
texture count. -/
def MVKPipelineLayout.texOccupies (L : MVKPipelineLayout) (i : Nat)
    (s : Fin kMVKShaderStageMax) (n : Nat) : Prop :=
  ((L.offsetAt i).stages s).textureIndex ≤ n ∧
    n < ((L.offsetAt i).stages s).textureIndex + (L.countsAt i).textureCount

/-- Set `i` occupies buffer index `n` in stage `s`. -/
def MVKPipelineLayout.bufOccupies (L : MVKPipelineLayout) (i : Nat)
    (s : Fin kMVKShaderStageMax) (n : Nat) : Prop :=
  ((L.offsetAt i).stages s).bufferIndex ≤ n ∧
    n < ((L.offsetAt i).stages s).bufferIndex + (L.countsAt i).bufferCount

/-- Set `i` occupies sampler index `n` in stage `s`. -/
def MVKPipelineLayout.samOccupies (L : MVKPipelineLayout) (i : Nat)
    (s : Fin kMVKShaderStageMax) (n : Nat) : Prop :=
  ((L.offsetAt i).stages s).samplerIndex ≤ n ∧
    n < ((L.offsetAt i).stages s).samplerIndex + (L.countsAt i).samplerCount

instance (L : MVKPipelineLayout) (i : Nat) (s : Fin kMVKShaderStageMax)
    (n : Nat) : Decidable (L.texOccupies i s n) :=
  inferInstanceAs (Decidable (And _ _))

instance (L : MVKPipelineLayout) (i : Nat) (s : Fin kMVKShaderStageMax)
    (n : Nat) : Decidable (L.bufOccupies i s n) :=
  inferInstanceAs (Decidable (And _ _))

instance (L : MVKPipelineLayout) (i : Nat) (s : Fin kMVKShaderStageMax)
    (n : Nat) : Decidable (L.samOccupies i s n) :=
  inferInstanceAs (Decidable (And _ _))

/-! ## Pipeline cache

The cache is an outer mapping from shader-module identity to an inner
cache, the inner cache mapping a conversion context to a compiled shader
unit (`MVKPipeline.h:334`).  Both levels are modelled as association lists
with structural key equality. -/

/-- First value stored under a key in an association list. -/
def alFind [DecidableEq α] : List (α × β) → α → Option β
  | [], _ => none
  | (k, v) :: rest, k0 => if k = k0 then some v else alFind rest k0

/-- Replace the value under a key, or append the pair when absent. -/
def alUpdate [DecidableEq α] : List (α × β) → α → β → List (α × β)
  | [], k, v => [(k, v)]
  | (k0, v0) :: rest, k, v =>
      if k0 = k then (k, v) :: rest else (k0, v0) :: alUpdate rest k v

/-- Add the pair only when the key is absent: the existing entry wins. -/
def alInsertIfAbsent [DecidableEq α] (es : List (α × β)) (k : α) (v : β) :
    List (α × β) :=
  match alFind es k with
  | some _ => es
  | none => es ++ [(k, v)]

/-- Modelled from the spec: `MVKShaderLibraryCache::getShaderLibrary`
(declared in `MVKShaderModule.h`, not in the snapshot): return the
compiled shader unit for the conversion context, compiling and inserting
on the first request, returning the memoized unit on subsequent identical
requests.  The result carries the updated inner cache, the unit, and the
number of backend compiles performed (0 or 1). -/
def MVKShaderLibraryCache.getShaderLibrary [DecidableEq C]
    (cache : List (C × L)) (ctx : C) (compile : C → L) :
    List (C × L) × L × Nat :=
  match alFind cache ctx with
  | some lib => (cache, lib, 0)
  | none => (cache ++ [(ctx, compile ctx)], compile ctx, 1)

/-- The state of an `MVKPipelineCache` object: the two-level shader cache
`_shaderCache` (`MVKPipeline.h:334`), keyed by shader-module identity `M`,
then by conversion context `C`, holding compiled units `L`. -/
structure MVKPipelineCache (M C L : Type) where
  shaderCache : List (M × List (C × L))

/-- Modelled from the spec: `MVKPipelineCache::getShaderLibraryCache`
(`MVKPipeline.h:329`, implemented in `MVKPipeline.mm`, not in the
snapshot): the inner cache for a module key, empty when none exists yet. -/
def MVKPipelineCache.getShaderLibraryCache [DecidableEq M]
    (c : MVKPipelineCache M C L) (m : M) : List (C × L) :=
  (alFind c.shaderCache m).getD []

/-- Modelled from the spec: `MVKPipelineCache::getShaderLibrary`
(`MVKPipeline.h:316`, implemented in `MVKPipeline.mm`, not in the
snapshot): look up the module's inner cache and delegate to it, storing
the updated inner cache back.  Returns the updated cache, the shader
unit, and the number of backend compiles performed. -/
def MVKPipelineCache.getShaderLibrary [DecidableEq M] [DecidableEq C]
    (c : MVKPipelineCache M C L) (m : M) (ctx : C) (compile : C → L) :
    MVKPipelineCache M C L × L × Nat :=
  let r := MVKShaderLibraryCache.getShaderLibrary
    (c.getShaderLibraryCache m) ctx compile
  (⟨alUpdate c.shaderCache m r.1⟩, r.2.1, r.2.2)

/-- The unit stored for `(m, ctx)`, if any. -/
def MVKPipelineCache.lookupLibrary [DecidableEq M] [DecidableEq C]
    (c : MVKPipelineCache M C L) (m : M) (ctx : C) : Option L :=
  alFind (c.getShaderLibraryCache m) ctx

/-- Result codes returned by `writeData` and `mergePipelineCaches`. -/
inductive VkResultCode
  | success
  | incomplete
deriving DecidableEq

/-- The serialized-format version header; the spec requires the format to
be self-describing enough to detect incompatible versions on load. -/
def kPipelineCacheDataVersion : Nat := 1

/-- An end-of-data marker closing the serialized stream. -/
def kPipelineCacheDataEnd : Nat := 0

/-- Modelled from the spec: the private serialization format written by
`MVKPipelineCache::writeData(std::ostream, isCounting)`
(`MVKPipeline.h:331`, implemented in `MVKPipeline.mm`, not in the
snapshot).  A version header, then each module entry as its encoded key
followed by its context/unit pairs, then an end marker; the byte encoders
for keys, contexts and units stand for the opaque per-type encodings. -/
def MVKPipelineCache.serializedData (encM : M → List Nat)
    (encC : C → List Nat) (encL : L → List Nat)
    (c : MVKPipelineCache M C L) : List Nat :=
  [kPipelineCacheDataVersion] ++
    (c.shaderCache.map (fun e =>
      encM e.1 ++ (e.2.map (fun p => encC p.1 ++ encL p.2)).flatten)).flatten ++
    [kPipelineCacheDataEnd]

/-- Modelled from the spec: `MVKPipelineCache::writeData`
(`MVKPipeline.h:313`, implemented in `MVKPipeline.mm`, not in the
snapshot).  With no buffer (`pData` null) it reports the exact byte count
required.  With a buffer of the given capacity it serializes at most that
many bytes, reports the number of bytes actually written, and returns
`incomplete` when the buffer was too small.  The result carries the
result code, the reported size, and the bytes written. -/
def MVKPipelineCache.writeData (encM : M → List Nat) (encC : C → List Nat)
    (encL : L → List Nat) (c : MVKPipelineCache M C L)
    (buffer : Option Nat) : VkResultCode × Nat × List Nat :=
  let bytes := c.serializedData encM encC encL
  match buffer with
  | none => (.success, bytes.length, [])
  | some cap =>
      if bytes.length ≤ cap then (.success, bytes.length, bytes)
      else (.incomplete, (bytes.take cap).length, bytes.take cap)

/-- Modelled from the spec: `MVKShaderLibraryCache::merge` (declared in
`MVKShaderModule.h`, not in the snapshot): add every source entry whose
context is not already present; on collision the existing entry wins. -/
def MVKShaderLibraryCache.merge [DecidableEq C] (dst src : List (C × L)) :
    List (C × L) :=
  src.foldl (fun d p => alInsertIfAbsent d p.1 p.2) dst

/-- One step of the outer merge: fold one source module entry into the
destination by merging its inner cache into the destination's inner cache
for the same module key. -/
def MVKPipelineCache.mergeEntry [DecidableEq M] [DecidableEq C]
    (d : MVKPipelineCache M C L) (p : M × List (C × L)) :
    MVKPipelineCache M C L :=
  ⟨alUpdate d.shaderCache p.1
    (MVKShaderLibraryCache.merge (d.getShaderLibraryCache p.1) p.2)⟩

/-- Merge one source cache into the destination. -/
def MVKPipelineCache.mergeOne [DecidableEq M] [DecidableEq C]
    (dst src : MVKPipelineCache M C L) : MVKPipelineCache M C L :=
  src.shaderCache.foldl MVKPipelineCache.mergeEntry dst

/-- Modelled from the spec: `MVKPipelineCache::mergePipelineCaches`
(`MVKPipeline.h:319`, implemented in `MVKPipeline.mm`, not in the
snapshot): union the entries of every source cache into this cache; on a
key collision the existing entry wins. -/
def MVKPipelineCache.mergePipelineCaches [DecidableEq M] [DecidableEq C]
    (dst : MVKPipelineCache M C L) (srcs : List (MVKPipelineCache M C L)) :
    MVKPipelineCache M C L :=
  srcs.foldl MVKPipelineCache.mergeOne dst

/-! ## Claim theorems -/

/-- Claim C1: for every valid non-tessellated graphics pipeline
description, `getStages()` yields exactly one stage entry; for every
tessellated description (`patchControlPoints > 0`), `getStages()` yields
exactly three entries in the fixed order
{vertex-as-compute, tess-control, raster}. -/
theorem claim_C1 (p : MVKGraphicsPipeline) :
    (p.patchControlPoints = 0 → p.getStages.length = 1) ∧
    (p.patchControlPoints > 0 →
      p.getStages = [kMVKGraphicsStageVertex, kMVKGraphicsStageTessControl,
        kMVKGraphicsStageRasterization]) := by
  constructor <;> intro h <;>
    simp [MVKGraphicsPipeline.getStages,
      MVKGraphicsPipeline.isTessellationPipeline, h]

/-- Witness for C1 at patch control point counts 0 and 3. -/
theorem claim_C1_witness :
    (mkGraphicsPipeline 0 []).getStages.length = 1 ∧
    (mkGraphicsPipeline 3 []).getStages =
      [kMVKGraphicsStageVertex, kMVKGraphicsStageTessControl,
        kMVKGraphicsStageRasterization] :=
  ⟨(claim_C1 (mkGraphicsPipeline 0 [])).1 rfl,
   (claim_C1 (mkGraphicsPipeline 3 [])).2 (by decide)⟩

/-- Claim C2: pipeline construction is atomic.  Graphics construction
returns no pipeline exactly when one of its required descriptor compiles
failed (all four compiled states for the tessellated path, the single
state otherwise), and compute construction returns no pipeline exactly
when its single compile failed; a returned pipeline always carries every
compiled state of its shape, so no partially-built pipeline is ever
returned. -/
theorem claim_C2 (tess : Bool) (r : MVKGraphicsCompileResults σ τ)
    (cc : Option τ) (tg : Nat × Nat × Nat) (aux : Bool) :
    (initMTLRenderPipelineState tess r = none ↔
      (tess = true ∧ (r.tessVertexState = none ∨
        r.tessControlIndex16State = none ∨
        r.tessControlIndex32State = none ∨ r.rasterState = none)) ∨
      (tess = false ∧ r.rasterState = none)) ∧
    (initMVKComputePipeline cc tg aux = none ↔ cc = none) := by
  obtain ⟨v, c16, c32, m⟩ := r
  constructor
  · cases tess <;>
      cases v <;> cases c16 <;> cases c32 <;> cases m <;>
        simp [initMTLRenderPipelineState]
  · cases cc <;> simp [initMVKComputePipeline]

/-- Claim C6: `supportsDynamicState(x)` is true iff `x` was declared
dynamic at construction, and is false for every value outside the valid
dynamic-state enumeration range; the test is a bounds-checked read of the
fixed-size flag array, total on all of `Nat`. -/
theorem claim_C6 (patchCP : Nat) (declared : List Nat) (x : Nat)
    (hd : ∀ d ∈ declared, d < VK_DYNAMIC_STATE_RANGE_SIZE) :
    ((mkGraphicsPipeline patchCP declared).supportsDynamicState x = true ↔
      x ∈ declared) ∧
    (VK_DYNAMIC_STATE_RANGE_SIZE ≤ x →
      (mkGraphicsPipeline patchCP declared).supportsDynamicState x = false) := by
  constructor
  · by_cases hx : x < VK_DYNAMIC_STATE_RANGE_SIZE
    · simp [MVKGraphicsPipeline.supportsDynamicState, mkGraphicsPipeline,
        mkDynamicStateEnabled, hx]
    · simp only [MVKGraphicsPipeline.supportsDynamicState, hx, dif_neg,
        not_false_iff]
      constructor
      · intro h; exact absurd h (by simp)
      · intro hmem; exact absurd (hd x hmem) hx
  · intro hx
    have hx' : ¬ x < VK_DYNAMIC_STATE_RANGE_SIZE := by omega
    simp [MVKGraphicsPipeline.supportsDynamicState, hx']

/-- Witness for C6: with states 0 and 4 declared dynamic, state 4 is
supported and out-of-range state 100 is not. -/
theorem claim_C6_witness :
    (mkGraphicsPipeline 0 [0, 4]).supportsDynamicState 4 = true ∧
    (mkGraphicsPipeline 0 [0, 4]).supportsDynamicState 100 = false :=
  ⟨(claim_C6 0 [0, 4] 4 (by decide)).1.mpr (by decide),
   (claim_C6 0 [0, 4] 100 (by decide)).2 (by decide)⟩

/-- Claim C7: for both pipeline-state compiler kinds, a backend-reported
failure or a timeout yields a null state and exactly one logged
diagnostic, while success yields the compiled state with nothing
logged. -/
theorem claim_C7 (r : MVKMetalCompileOutcome σ) :
    (∀ s, r = .success s →
      newMTLRenderPipelineState r = ⟨some s, []⟩ ∧
      newMTLComputePipelineState r = ⟨some s, []⟩) ∧
    (∀ d, r = .failure d →
      (newMTLRenderPipelineState r).state = none ∧
      (newMTLRenderPipelineState r).logged.length = 1 ∧
      (newMTLComputePipelineState r).state = none ∧
      (newMTLComputePipelineState r).logged.length = 1) ∧
    (r = .timeout →
      (newMTLRenderPipelineState r).state = none ∧
      (newMTLRenderPipelineState r).logged.length = 1 ∧
      (newMTLComputePipelineState r).state = none ∧
      (newMTLComputePipelineState r).logged.length = 1) := by
  cases r <;>
    simp [newMTLRenderPipelineState, newMTLComputePipelineState]

/-- Witness for C7 at a success, a failure, and a timeout outcome. -/
theorem claim_C7_witness :
    newMTLRenderPipelineState (MVKMetalCompileOutcome.success 3) = ⟨some 3, []⟩ ∧
    (newMTLRenderPipelineState (MVKMetalCompileOutcome.failure "bad" :
      MVKMetalCompileOutcome Nat)).state = none ∧
    (newMTLComputePipelineState (MVKMetalCompileOutcome.failure "bad" :
      MVKMetalCompileOutcome Nat)).logged.length = 1 ∧
    (newMTLRenderPipelineState (MVKMetalCompileOutcome.timeout :
      MVKMetalCompileOutcome Nat)).state = none ∧
    (newMTLComputePipelineState (MVKMetalCompileOutcome.timeout :
      MVKMetalCompileOutcome Nat)).logged.length = 1 :=
  ⟨((claim_C7 (MVKMetalCompileOutcome.success 3)).1 3 rfl).1,
   ((claim_C7 (MVKMetalCompileOutcome.failure "bad" :
      MVKMetalCompileOutcome Nat)).2.1 "bad" rfl).1,
   ((claim_C7 (MVKMetalCompileOutcome.failure "bad" :
      MVKMetalCompileOutcome Nat)).2.1 "bad" rfl).2.2.2,
   ((claim_C7 (MVKMetalCompileOutcome.timeout :
      MVKMetalCompileOutcome Nat)).2.2 rfl).1,
   ((claim_C7 (MVKMetalCompileOutcome.timeout :
      MVKMetalCompileOutcome Nat)).2.2 rfl).2.2.2⟩

/-! ### Resource-layout lemmas -/

theorem dslResourceIndexOffsets_length
    (sets : List MVKDescriptorSetLayoutCounts) :
    ∀ start, (dslResourceIndexOffsets start sets).1.length = sets.length := by
  induction sets with
  | nil => intro start; rfl
  | cons d rest ih =>
      intro start
      simp [dslResourceIndexOffsets, ih (start.addDSL d)]

theorem countTotal_cons (f : MVKDescriptorSetLayoutCounts → Nat)
    (d : MVKDescriptorSetLayoutCounts)
    (rest : List MVKDescriptorSetLayoutCounts) :
    countTotal f (d :: rest) = f d + countTotal f rest := by
  simp [countTotal]

theorem dslResourceIndexOffsets_getD
    (sets : List MVKDescriptorSetLayoutCounts) :
    ∀ (start : MVKShaderResourceBinding) (i : Nat), i < sets.length →
      ∀ s, (((dslResourceIndexOffsets start sets).1.getD i .zero).stages s) =
        { bufferIndex := (start.stages s).bufferIndex +
            countTotal (fun d => d.bufferCount) (sets.take i)
          textureIndex := (start.stages s).textureIndex +
            countTotal (fun d => d.textureCount) (sets.take i)
          samplerIndex := (start.stages s).samplerIndex +
            countTotal (fun d => d.samplerCount) (sets.take i) } := by
  induction sets with
  | nil => intro start i hi s; simp at hi
  | cons d rest ih =>
      intro start i hi s
      cases i with
      | zero => simp [dslResourceIndexOffsets, countTotal]
      | succ i0 =>
          have hi0 : i0 < rest.length := by simpa using hi
          have := ih (start.addDSL d) i0 hi0 s
          simp only [dslResourceIndexOffsets, List.getD_cons_succ, this,
            List.take_succ_cons, countTotal_cons]
          simp only [MVKShaderResourceBinding.addDSL,
            MVKShaderStageResourceBinding.mk.injEq]
          omega

theorem dslResourceIndexOffsets_snd
    (sets : List MVKDescriptorSetLayoutCounts) :
    ∀ (start : MVKShaderResourceBinding) (s : Fin kMVKShaderStageMax),
      (((dslResourceIndexOffsets start sets).2).stages s) =
        { bufferIndex := (start.stages s).bufferIndex +
            countTotal (fun d => d.bufferCount) sets
          textureIndex := (start.stages s).textureIndex +
            countTotal (fun d => d.textureCount) sets
          samplerIndex := (start.stages s).samplerIndex +
            countTotal (fun d => d.samplerCount) sets } := by
  induction sets with
  | nil => intro start s; simp [dslResourceIndexOffsets, countTotal]
  | cons d rest ih =>
      intro start s
      simp only [dslResourceIndexOffsets, ih (start.addDSL d),
        countTotal_cons]
      simp only [MVKShaderResourceBinding.addDSL,
        MVKShaderStageResourceBinding.mk.injEq]
      omega

theorem countTotal_take_le (f : MVKDescriptorSetLayoutCounts → Nat)
    (sets : List MVKDescriptorSetLayoutCounts) :
    ∀ i j, i ≤ j →
      countTotal f (sets.take i) ≤ countTotal f (sets.take j) := by
  induction sets with
  | nil => intro i j _; simp
  | cons d rest ih =>
      intro i j hij
      cases i with
      | zero => simp [countTotal]
      | succ i0 =>
          cases j with
          | zero => omega
          | succ j0 =>
              simp only [List.take_succ_cons, countTotal_cons]
              exact Nat.add_le_add_left (ih i0 j0 (by omega)) _

theorem countTotal_take_succ (f : MVKDescriptorSetLayoutCounts → Nat)
    (sets : List MVKDescriptorSetLayoutCounts) :
    ∀ i, i < sets.length →
      countTotal f (sets.take (i + 1)) =
        countTotal f (sets.take i) + f (sets.getD i ⟨0, 0, 0⟩) := by
  induction sets with
  | nil => intro i hi; simp at hi
  | cons d rest ih =>
      intro i hi
      cases i with
      | zero => simp [countTotal]
      | succ i0 =>
          have hi0 : i0 < rest.length := by simpa using hi
          simp only [List.take_succ_cons, countTotal_cons,
            List.getD_cons_succ, ih i0 hi0]
          omega

theorem mkPipelineLayout_offsetAt (sets : List MVKDescriptorSetLayoutCounts)
    (i : Nat) (hi : i < sets.length) (s : Fin kMVKShaderStageMax) :
    (((mkPipelineLayout sets).offsetAt i).stages s) =
      { bufferIndex := countTotal (fun d => d.bufferCount) (sets.take i)
        textureIndex := countTotal (fun d => d.textureCount) (sets.take i)
        samplerIndex := countTotal (fun d => d.samplerCount) (sets.take i) } := by
  show (((dslResourceIndexOffsets .zero sets).1.getD i .zero).stages s) = _
  rw [dslResourceIndexOffsets_getD sets .zero i hi s]
  simp [MVKShaderResourceBinding.zero]

theorem occupies_disjoint_aux (f : MVKDescriptorSetLayoutCounts → Nat)
    (sets : List MVKDescriptorSetLayoutCounts) (i j n : Nat)
    (hij : i < j) (hj : j < sets.length)
    (_h1 : countTotal f (sets.take i) ≤ n)
    (h2 : n < countTotal f (sets.take i) + f (sets.getD i ⟨0, 0, 0⟩))
    (h3 : countTotal f (sets.take j) ≤ n) : False := by
  have hi : i < sets.length := Nat.lt_trans hij hj
  have hstep := countTotal_take_succ f sets i hi
  have hmono := countTotal_take_le f sets (i + 1) j hij
  omega

/-- Claim C8: for every pipeline layout, the per-set resource-index
offsets computed at construction assign non-overlapping backend resource
indices to distinct sets within each shader stage: no buffer, texture or
sampler index is occupied by two different sets in the same stage. -/
theorem claim_C8 (sets : List MVKDescriptorSetLayoutCounts) (i j : Nat)
    (s : Fin kMVKShaderStageMax) (n : Nat) (hij : i < j)
    (hj : j < sets.length) :
    ((mkPipelineLayout sets).texOccupies i s n →
      ¬ (mkPipelineLayout sets).texOccupies j s n) ∧
    ((mkPipelineLayout sets).bufOccupies i s n →
      ¬ (mkPipelineLayout sets).bufOccupies j s n) ∧
    ((mkPipelineLayout sets).samOccupies i s n →
      ¬ (mkPipelineLayout sets).samOccupies j s n) := by
  have hi : i < sets.length := Nat.lt_trans hij hj
  have hoi := mkPipelineLayout_offsetAt sets i hi s
  have hoj := mkPipelineLayout_offsetAt sets j hj s
  have hci : (mkPipelineLayout sets).countsAt i = sets.getD i ⟨0, 0, 0⟩ := rfl
  have hcj : (mkPipelineLayout sets).countsAt j = sets.getD j ⟨0, 0, 0⟩ := rfl
  refine ⟨?_, ?_, ?_⟩ <;> intro h1 h2
  · rw [MVKPipelineLayout.texOccupies, hoi, hci] at h1
    rw [MVKPipelineLayout.texOccupies, hoj, hcj] at h2
    exact occupies_disjoint_aux (fun d => d.textureCount) sets i j n
      hij hj h1.1 h1.2 h2.1
  · rw [MVKPipelineLayout.bufOccupies, hoi, hci] at h1
    rw [MVKPipelineLayout.bufOccupies, hoj, hcj] at h2
    exact occupies_disjoint_aux (fun d => d.bufferCount) sets i j n
      hij hj h1.1 h1.2 h2.1
  · rw [MVKPipelineLayout.samOccupies, hoi, hci] at h1
    rw [MVKPipelineLayout.samOccupies, hoj, hcj] at h2
    exact occupies_disjoint_aux (fun d => d.samplerCount) sets i j n
      hij hj h1.1 h1.2 h2.1

/-- Witness for C8: two sets of one resource each; index 0, occupied by
set 0, is not occupied by set 1 in stage 0. -/
theorem claim_C8_witness :
    (mkPipelineLayout [⟨1, 1, 1⟩, ⟨1, 1, 1⟩]).texOccupies 0 ⟨0, by decide⟩ 0 ∧
    ¬ (mkPipelineLayout [⟨1, 1, 1⟩, ⟨1, 1, 1⟩]).texOccupies 1 ⟨0, by decide⟩ 0 :=
  ⟨by decide,
   (claim_C8 [⟨1, 1, 1⟩, ⟨1, 1, 1⟩] 0 1 ⟨0, by decide⟩ 0 (by decide)
      (by decide)).1 (by decide)⟩

/-- Claim C9: `getTextureCount()` on a pipeline layout returns the total
number of textures declared in the layout. -/
theorem claim_C9 (sets : List MVKDescriptorSetLayoutCounts) :
    (mkPipelineLayout sets).getTextureCount =
      countTotal (fun d => d.textureCount) sets := by
  show ((dslResourceIndexOffsets .zero sets).2).getMaxTextureIndex = _
  rw [MVKShaderResourceBinding.getMaxTextureIndex,
    dslResourceIndexOffsets_snd sets .zero ⟨0, by decide⟩,
    dslResourceIndexOffsets_snd sets .zero ⟨1, by decide⟩,
    dslResourceIndexOffsets_snd sets .zero ⟨2, by decide⟩,
    dslResourceIndexOffsets_snd sets .zero ⟨3, by decide⟩,
    dslResourceIndexOffsets_snd sets .zero ⟨4, by decide⟩]
  simp [MVKShaderResourceBinding.zero]

/-! ### Association-list lemmas -/

theorem alFind_append_some [DecidableEq α] {es : List (α × β)} {k : α}
    {v : β} (h : alFind es k = some v) (es' : List (α × β)) :
    alFind (es ++ es') k = some v := by
  induction es with
  | nil => simp [alFind] at h
  | cons p rest ih =>
      obtain ⟨a, b⟩ := p
      by_cases hk : a = k <;> simp [alFind, hk] at h ⊢
      · exact h
      · exact ih h

theorem alFind_append_self [DecidableEq α] {es : List (α × β)} {k : α}
    (h : alFind es k = none) (v : β) :
    alFind (es ++ [(k, v)]) k = some v := by
  induction es with
  | nil => simp [alFind]
  | cons p rest ih =>
      obtain ⟨a, b⟩ := p
      by_cases hk : a = k <;> simp [alFind, hk] at h ⊢
      exact ih h

theorem alFind_alUpdate_self [DecidableEq α] (es : List (α × β)) (k : α)
    (v : β) : alFind (alUpdate es k v) k = some v := by
  induction es with
  | nil => simp [alUpdate, alFind]
  | cons p rest ih =>
      obtain ⟨a, b⟩ := p
      by_cases hk : a = k <;> simp [alUpdate, alFind, hk]
      exact ih

theorem alFind_alUpdate_ne [DecidableEq α] (es : List (α × β)) (k : α)
    (v : β) {k' : α} (h : k' ≠ k) :
    alFind (alUpdate es k v) k' = alFind es k' := by
  have hk0 : ¬ k = k' := fun he => h he.symm
  induction es with
  | nil => simp [alUpdate, alFind, hk0]
  | cons p rest ih =>
      obtain ⟨a, b⟩ := p
      by_cases hk : a = k
      · subst hk
        simp [alUpdate, alFind, hk0]
      · by_cases hk' : a = k'
        · subst hk'
          simp [alUpdate, alFind, hk]
        · simp [alUpdate, alFind, hk, hk', ih]

theorem alFind_insertIfAbsent_preserve [DecidableEq α] {es : List (α × β)}
    {k : α} {v : β} (h : alFind es k = some v) (k' : α) (v' : β) :
    alFind (alInsertIfAbsent es k' v') k = some v := by
  unfold alInsertIfAbsent
  cases hf : alFind es k' with
  | some w => exact h
  | none => exact alFind_append_some h _

theorem alFind_insertIfAbsent_self [DecidableEq α] (es : List (α × β))
    (k : α) (v : β) : (alFind (alInsertIfAbsent es k v) k).isSome := by
  unfold alInsertIfAbsent
  cases hf : alFind es k with
  | some w => simp [hf]
  | none => simp [alFind_append_self hf v]

/-! ### Shader-library-cache merge lemmas -/

theorem merge_preserve [DecidableEq C] {l : L} (src : List (C × L)) :
    ∀ (dst : List (C × L)) (ctx : C), alFind dst ctx = some l →
      alFind (MVKShaderLibraryCache.merge dst src) ctx = some l := by
  induction src with
  | nil => intro dst ctx h; exact h
  | cons p rest ih =>
      intro dst ctx h
      show alFind (MVKShaderLibraryCache.merge
        (alInsertIfAbsent dst p.1 p.2) rest) ctx = some l
      exact ih _ _ (alFind_insertIfAbsent_preserve h _ _)

theorem merge_preserve_isSome [DecidableEq C] (src dst : List (C × L))
    (ctx : C) (h : (alFind dst ctx).isSome) :
    (alFind (MVKShaderLibraryCache.merge dst src) ctx).isSome := by
  obtain ⟨w, hw⟩ := Option.isSome_iff_exists.mp h
  simp [merge_preserve src dst ctx hw]

theorem merge_contains [DecidableEq C] {l : L} (src : List (C × L)) :
    ∀ (dst : List (C × L)) (ctx : C), alFind src ctx = some l →
      (alFind (MVKShaderLibraryCache.merge dst src) ctx).isSome := by
  induction src with
  | nil => intro dst ctx h; simp [alFind] at h
  | cons p rest ih =>
      intro dst ctx h
      obtain ⟨a, b⟩ := p
      show (alFind (MVKShaderLibraryCache.merge
        (alInsertIfAbsent dst a b) rest) ctx).isSome
      by_cases hk : a = ctx
      · subst hk
        exact merge_preserve_isSome rest _ a
          (alFind_insertIfAbsent_self dst a b)
      · simp [alFind, hk] at h
        exact ih _ _ h

/-! ### Pipeline-cache merge lemmas -/

theorem mergeEntry_preserve [DecidableEq M] [DecidableEq C] {l : L}
    (d : MVKPipelineCache M C L) (p : M × List (C × L)) (m : M) (ctx : C)
    (h : d.lookupLibrary m ctx = some l) :
    (d.mergeEntry p).lookupLibrary m ctx = some l := by
  simp only [MVKPipelineCache.lookupLibrary, MVKPipelineCache.mergeEntry,
    MVKPipelineCache.getShaderLibraryCache] at h ⊢
  by_cases hm : m = p.1
  · subst hm
    rw [alFind_alUpdate_self]
    exact merge_preserve p.2 _ ctx h
  · rw [alFind_alUpdate_ne _ _ _ hm]
    exact h

theorem mergeEntryFold_preserve [DecidableEq M] [DecidableEq C] {l : L}
    (ps : List (M × List (C × L))) :
    ∀ (d : MVKPipelineCache M C L) (m : M) (ctx : C),
      d.lookupLibrary m ctx = some l →
      (ps.foldl MVKPipelineCache.mergeEntry d).lookupLibrary m ctx = some l := by
  induction ps with
  | nil => intro d m ctx h; exact h
  | cons p rest ih =>
      intro d m ctx h
      exact ih _ _ _ (mergeEntry_preserve d p m ctx h)

theorem mergeEntryFold_preserve_isSome [DecidableEq M] [DecidableEq C]
    (ps : List (M × List (C × L))) (d : MVKPipelineCache M C L) (m : M)
    (ctx : C) (h : (d.lookupLibrary m ctx).isSome) :
    ((ps.foldl MVKPipelineCache.mergeEntry d).lookupLibrary m ctx).isSome := by
  obtain ⟨w, hw⟩ := Option.isSome_iff_exists.mp h
  simp [mergeEntryFold_preserve ps d m ctx hw]

theorem mergeEntryFold_contains [DecidableEq M] [DecidableEq C] {l : L}
    (ps : List (M × List (C × L))) :
    ∀ (d : MVKPipelineCache M C L) (m : M) (ctx : C)
      (inner : List (C × L)), alFind ps m = some inner →
      alFind inner ctx = some l →
      ((ps.foldl MVKPipelineCache.mergeEntry d).lookupLibrary m ctx).isSome := by
  induction ps with
  | nil => intro d m ctx inner h1 _; simp [alFind] at h1
  | cons p rest ih =>
      intro d m ctx inner h1 h2
      obtain ⟨m0, i0⟩ := p
      by_cases hm : m0 = m
      · subst hm
        simp [alFind] at h1
        have h2' : alFind i0 ctx = some l := by rw [h1]; exact h2
        rw [List.foldl_cons]
        apply mergeEntryFold_preserve_isSome
        simp only [MVKPipelineCache.lookupLibrary, MVKPipelineCache.mergeEntry,
          MVKPipelineCache.getShaderLibraryCache]
        rw [alFind_alUpdate_self]
        exact merge_contains i0 _ ctx h2'
      · simp [alFind, hm] at h1
        exact ih _ _ _ inner h1 h2

theorem mergeAll_preserve [DecidableEq M] [DecidableEq C] {l : L}
    (srcs : List (MVKPipelineCache M C L)) :
    ∀ (dst : MVKPipelineCache M C L) (m : M) (ctx : C),
      dst.lookupLibrary m ctx = some l →
      (dst.mergePipelineCaches srcs).lookupLibrary m ctx = some l := by
  induction srcs with
  | nil => intro dst m ctx h; exact h
  | cons s rest ih =>
      intro dst m ctx h
      exact ih _ _ _ (mergeEntryFold_preserve s.shaderCache dst m ctx h)

theorem mergeAll_preserve_isSome [DecidableEq M] [DecidableEq C]
    (srcs : List (MVKPipelineCache M C L)) (dst : MVKPipelineCache M C L)
    (m : M) (ctx : C) (h : (dst.lookupLibrary m ctx).isSome) :
    ((dst.mergePipelineCaches srcs).lookupLibrary m ctx).isSome := by
  obtain ⟨w, hw⟩ := Option.isSome_iff_exists.mp h
  simp [mergeAll_preserve srcs dst m ctx hw]

theorem mergeAll_contains [DecidableEq M] [DecidableEq C] {l : L}
    (srcs : List (MVKPipelineCache M C L)) :
    ∀ (dst src : MVKPipelineCache M C L) (m : M) (ctx : C), src ∈ srcs →
      src.lookupLibrary m ctx = some l →
      ((dst.mergePipelineCaches srcs).lookupLibrary m ctx).isSome := by
  induction srcs with
  | nil => intro dst src m ctx hmem _; simp at hmem
  | cons s rest ih =>
      intro dst src m ctx hmem h
      rcases List.mem_cons.mp hmem with hs | hs
      · subst hs
        apply mergeAll_preserve_isSome rest
        unfold MVKPipelineCache.lookupLibrary
          MVKPipelineCache.getShaderLibraryCache at h
        cases hf : alFind src.shaderCache m with
        | none => rw [hf] at h; simp [alFind] at h
        | some inner =>
            rw [hf] at h
            simp only [Option.getD_some] at h
            exact mergeEntryFold_contains src.shaderCache dst m ctx inner hf h
      · exact ih _ _ _ _ hs h

theorem getShaderLibrary_cached [DecidableEq M] [DecidableEq C]
    (c : MVKPipelineCache M C L) (m : M) (ctx : C) (compile : C → L)
    {w : L} (h : c.lookupLibrary m ctx = some w) :
    (c.getShaderLibrary m ctx compile).2.1 = w ∧
    (c.getShaderLibrary m ctx compile).2.2 = 0 := by
  unfold MVKPipelineCache.lookupLibrary at h
  unfold MVKPipelineCache.getShaderLibrary
    MVKShaderLibraryCache.getShaderLibrary
  rw [h]
  exact ⟨rfl, rfl⟩

theorem getShaderLibrary_lookup_self [DecidableEq M] [DecidableEq C]
    (c : MVKPipelineCache M C L) (m : M) (ctx : C) (compile : C → L) :
    (c.getShaderLibrary m ctx compile).1.lookupLibrary m ctx =
      some (c.getShaderLibrary m ctx compile).2.1 := by
  unfold MVKPipelineCache.getShaderLibrary MVKPipelineCache.lookupLibrary
    MVKPipelineCache.getShaderLibraryCache
    MVKShaderLibraryCache.getShaderLibrary
  cases hf : alFind ((alFind c.shaderCache m).getD []) ctx with
  | some lib => simp [alFind_alUpdate_self, hf]
  | none => simp [alFind_alUpdate_self, alFind_append_self hf]

/-- Claim C3: `getShaderLibrary` is memoizing.  A second call with a
structurally equal (module, context) key returns the same cached unit and
performs no compile; the first call performs exactly one compile when the
key was absent. -/
theorem claim_C3 [DecidableEq M] [DecidableEq C]
    (c : MVKPipelineCache M C L) (m : M) (ctx : C) (compile : C → L) :
    ((c.getShaderLibrary m ctx compile).1.getShaderLibrary m ctx compile).2.1 =
      (c.getShaderLibrary m ctx compile).2.1 ∧
    ((c.getShaderLibrary m ctx compile).1.getShaderLibrary m ctx compile).2.2 = 0 ∧
    (c.lookupLibrary m ctx = none → (c.getShaderLibrary m ctx compile).2.2 = 1) := by
  have h := getShaderLibrary_lookup_self c m ctx compile
  have hc := getShaderLibrary_cached
    (c.getShaderLibrary m ctx compile).1 m ctx compile h
  refine ⟨hc.1, hc.2, ?_⟩
  intro hnone
  unfold MVKPipelineCache.lookupLibrary at hnone
  unfold MVKPipelineCache.getShaderLibrary
    MVKShaderLibraryCache.getShaderLibrary
  rw [hnone]

/-- Witness for C3: on an empty cache, the first request compiles once and
the second identical request returns the same unit with no compile. -/
theorem claim_C3_witness :
    (((MVKPipelineCache.mk [] : MVKPipelineCache Nat Nat Nat).getShaderLibrary
        0 1 (fun _ => 42)).1.getShaderLibrary 0 1 (fun _ => 42)).2.1 =
      ((MVKPipelineCache.mk [] : MVKPipelineCache Nat Nat Nat).getShaderLibrary
        0 1 (fun _ => 42)).2.1 ∧
    (((MVKPipelineCache.mk [] : MVKPipelineCache Nat Nat Nat).getShaderLibrary
        0 1 (fun _ => 42)).1.getShaderLibrary 0 1 (fun _ => 42)).2.2 = 0 ∧
    ((MVKPipelineCache.mk [] : MVKPipelineCache Nat Nat Nat).getShaderLibrary
        0 1 (fun _ => 42)).2.2 = 1 :=
  ⟨(claim_C3 (MVKPipelineCache.mk []) 0 1 (fun _ => 42)).1,
   (claim_C3 (MVKPipelineCache.mk []) 0 1 (fun _ => 42)).2.1,
   (claim_C3 (MVKPipelineCache.mk []) 0 1 (fun _ => 42)).2.2 rfl⟩

/-- Claim C4: `writeData` obeys the two-call size-query protocol: a null
buffer reports the exact byte count required; a buffer at least that
large receives the full serialization with the same reported count; a
smaller buffer is filled up to its capacity and the count actually
written is reported; no call writes past the supplied capacity. -/
theorem claim_C4 (encM : M → List Nat) (encC : C → List Nat)
    (encL : L → List Nat) (c : MVKPipelineCache M C L) (cap : Nat) :
    ((c.writeData encM encC encL none).2.1 =
        (c.serializedData encM encC encL).length ∧
      (c.writeData encM encC encL none).2.2 = []) ∧
    ((c.writeData encM encC encL none).2.1 ≤ cap →
      c.writeData encM encC encL (some cap) =
        (.success, (c.serializedData encM encC encL).length,
          c.serializedData encM encC encL)) ∧
    (cap < (c.writeData encM encC encL none).2.1 →
      (c.writeData encM encC encL (some cap)).2.2.length = cap ∧
      (c.writeData encM encC encL (some cap)).2.1 = cap ∧
      (c.writeData encM encC encL (some cap)).2.2 =
        (c.serializedData encM encC encL).take cap) ∧
    (c.writeData encM encC encL (some cap)).2.2.length ≤ cap := by
  unfold MVKPipelineCache.writeData
  by_cases h : (c.serializedData encM encC encL).length ≤ cap <;>
    simp [h, List.length_take]
  omega

/-- Witness for C4 on a one-entry cache whose serialization is 5 bytes:
the null-buffer query reports 5, a 5-byte buffer receives everything with
the same count, and a 3-byte buffer receives exactly 3 bytes. -/
theorem claim_C4_witness :
    ((MVKPipelineCache.mk [(1, [(2, 3)])] : MVKPipelineCache Nat Nat Nat).writeData
        (fun n => [n]) (fun n => [n]) (fun n => [n]) none).2.1 =
      ((MVKPipelineCache.mk [(1, [(2, 3)])] :
        MVKPipelineCache Nat Nat Nat).serializedData
        (fun n => [n]) (fun n => [n]) (fun n => [n])).length ∧
    (MVKPipelineCache.mk [(1, [(2, 3)])] : MVKPipelineCache Nat Nat Nat).writeData
        (fun n => [n]) (fun n => [n]) (fun n => [n]) (some 5) =
      (.success, ((MVKPipelineCache.mk [(1, [(2, 3)])] :
          MVKPipelineCache Nat Nat Nat).serializedData
          (fun n => [n]) (fun n => [n]) (fun n => [n])).length,
        (MVKPipelineCache.mk [(1, [(2, 3)])] :
          MVKPipelineCache Nat Nat Nat).serializedData
          (fun n => [n]) (fun n => [n]) (fun n => [n])) ∧
    ((MVKPipelineCache.mk [(1, [(2, 3)])] : MVKPipelineCache Nat Nat Nat).writeData
        (fun n => [n]) (fun n => [n]) (fun n => [n]) (some 3)).2.2.length = 3 :=
  ⟨(claim_C4 (fun n => [n]) (fun n => [n]) (fun n => [n])
      (MVKPipelineCache.mk [(1, [(2, 3)])]) 5).1.1,
   (claim_C4 (fun n => [n]) (fun n => [n]) (fun n => [n])
      (MVKPipelineCache.mk [(1, [(2, 3)])]) 5).2.1 (by decide),
   ((claim_C4 (fun n => [n]) (fun n => [n]) (fun n => [n])
      (MVKPipelineCache.mk [(1, [(2, 3)])]) 3).2.2.1 (by decide)).1⟩

/-- Claim C5: `mergePipelineCaches` unions every source cache into the
destination; on a key collision the destination's existing entry wins,
and afterwards every key present in any source resolves through
`getShaderLibrary` without a fresh compile. -/
theorem claim_C5 [DecidableEq M] [DecidableEq C]
    (dst src : MVKPipelineCache M C L) (srcs : List (MVKPipelineCache M C L))
    (m : M) (ctx : C) (compile : C → L) :
    (∀ l, dst.lookupLibrary m ctx = some l →
      (dst.mergePipelineCaches srcs).lookupLibrary m ctx = some l) ∧
    (src ∈ srcs → ∀ l, src.lookupLibrary m ctx = some l →
      ((dst.mergePipelineCaches srcs).getShaderLibrary m ctx compile).2.2 = 0) := by
  constructor
  · intro l h
    exact mergeAll_preserve srcs dst m ctx h
  · intro hmem l h
    have hs := mergeAll_contains srcs dst src m ctx hmem h
    obtain ⟨w, hw⟩ := Option.isSome_iff_exists.mp hs
    exact (getShaderLibrary_cached _ m ctx compile hw).2

/-- Witness for C5: the destination holds (0,0) ↦ 5, the single source
holds (0,0) ↦ 9 and (0,1) ↦ 7; after the merge the destination entry
wins at (0,0) and the source-only key (0,1) resolves with no compile. -/
theorem claim_C5_witness :
    ((MVKPipelineCache.mk [(0, [(0, 5)])] :
        MVKPipelineCache Nat Nat Nat).mergePipelineCaches
        [MVKPipelineCache.mk [(0, [(0, 9), (1, 7)])]]).lookupLibrary 0 0 =
      some 5 ∧
    (((MVKPipelineCache.mk [(0, [(0, 5)])] :
        MVKPipelineCache Nat Nat Nat).mergePipelineCaches
        [MVKPipelineCache.mk [(0, [(0, 9), (1, 7)])]]).getShaderLibrary 0 1
        (fun _ => 0)).2.2 = 0 :=
  ⟨(claim_C5 (MVKPipelineCache.mk [(0, [(0, 5)])])
      (MVKPipelineCache.mk [(0, [(0, 9), (1, 7)])])
      [MVKPipelineCache.mk [(0, [(0, 9), (1, 7)])]] 0 0 (fun _ => 0)).1 5 rfl,
   (claim_C5 (MVKPipelineCache.mk [(0, [(0, 5)])])
      (MVKPipelineCache.mk [(0, [(0, 9), (1, 7)])])
      [MVKPipelineCache.mk [(0, [(0, 9), (1, 7)])]] 0 1 (fun _ => 0)).2
      (by simp) 7 rfl⟩

/-- Claim C10: `MVKComputePipeline::encode` is independent of its stage
argument: for every pipeline and every pair of stage values, encoding
produces the same binding effect. -/
theorem claim_C10 (p : MVKComputePipeline σ) (s1 s2 : Nat) :
    p.encode s1 = p.encode s2 := rfl

end MVK
